import Mathlib

/-!
Verification development for the GlueousReader document viewer.

The definitions below are a shallow embedding of the view-state engine:
`FileState` serialization (plugins/Tab/FileState.py), the `Tab` view-state
setters, persistent-store lookup, renderer and rotation helpers
(plugins/Tab/Tab.py), and the debounced scheduler with visible-region
clamping of the example viewer (schedule/pdf_viewer_example.py).
Python floats are modelled as rationals, dictionaries produced by
`to_json` as structures of optional fields, and exceptions as explicit
`Except` results or returned error options.
-/

/-- One favorite entry of a book: a page number and a display name
(plugins/Tab/FileState.py, class Favorite). -/
structure Favorite where
  page_no : Int
  name : String
deriving DecidableEq, Repr

/-- The JSON object serializing a `Favorite`: each key may be absent. -/
structure FavoriteJson where
  page_no : Option Int
  name : Option String
deriving DecidableEq, Repr

/-- `Favorite.from_json`: requires the key `page_no`; `name` falls back
to the empty string. -/
def Favorite.from_json (j : FavoriteJson) : Except String Favorite :=
  match j.page_no with
  | none => .error "missing field page_no in JSON object"
  | some p => .ok { page_no := p, name := j.name.getD "" }

/-- `Favorite.to_json`: emits both keys. -/
def Favorite.to_json (f : Favorite) : FavoriteJson :=
  { page_no := some f.page_no, name := some f.name }

/-- The persisted per-document view configuration
(plugins/Tab/FileState.py, class FileState). -/
structure FileState where
  file_path : String
  favorites : List Favorite
  is_pinned : Bool
  is_missing : Bool
  open_count : Int
  use_default_state : Bool
  display_mode : String
  scroll_pos : ℚ × ℚ
  page_no : Int
  zoom : ℚ
  rotation : Int
  window_state : Int
  window_pos : Int × Int × Int × Int
  show_toc : Bool
  sidebar_dx : Int
  display_r2l : Bool
  reparse_idx : Int
deriving DecidableEq, Repr

/-- `FileState.__init__`: the defaults applied on first construction. -/
def FileState.init (file_path : String) : FileState where
  file_path := file_path
  favorites := []
  is_pinned := false
  is_missing := false
  open_count := 0
  use_default_state := false
  display_mode := "continuous"
  scroll_pos := (0, 0)
  page_no := 1
  zoom := 1
  rotation := 0
  window_state := 0
  window_pos := (0, 0, 0, 0)
  show_toc := false
  sidebar_dx := 572
  display_r2l := false
  reparse_idx := 0

/-- The flat key-value record serializing a `FileState`: every key may
be absent (a loaded blob may have dropped any of them). -/
structure FileStateJson where
  file_path : Option String
  favorites : Option (List FavoriteJson)
  is_pinned : Option Bool
  is_missing : Option Bool
  open_count : Option Int
  use_default_state : Option Bool
  display_mode : Option String
  scroll_pos : Option (List ℚ)
  page_no : Option Int
  zoom : Option ℚ
  rotation : Option Int
  window_state : Option Int
  window_pos : Option (List Int)
  show_toc : Option Bool
  sidebar_dx : Option Int
  display_r2l : Option Bool
  reparse_idx : Option Int
deriving DecidableEq, Repr

/-- `FileState.from_json`: fails when `file_path` is missing, every other
key falls back to its constructor default; the two tuple-valued keys are
read by positional indexing (an out-of-range index raises). -/
def FileState.from_json (j : FileStateJson) : Except String FileState := do
  let fp ← match j.file_path with
    | none => .error "missing field file_path in JSON object"
    | some fp => Except.ok fp
  let sp := j.scroll_pos.getD [0, 0]
  let spv ← match sp with
    | x :: y :: _ => Except.ok ((x : ℚ), (y : ℚ))
    | _ => .error "IndexError: scroll_pos"
  let wp := j.window_pos.getD [0, 0, 0, 0]
  let wpv ← match wp with
    | a :: b :: c :: d :: _ => Except.ok ((a : Int), b, c, d)
    | _ => .error "IndexError: window_pos"
  let favs ← (j.favorites.getD []).mapM Favorite.from_json
  Except.ok {
    file_path := fp
    favorites := favs
    is_pinned := j.is_pinned.getD false
    is_missing := j.is_missing.getD false
    open_count := j.open_count.getD 0
    use_default_state := j.use_default_state.getD false
    display_mode := j.display_mode.getD "continuous"
    scroll_pos := spv
    page_no := j.page_no.getD 1
    zoom := j.zoom.getD 1
    rotation := j.rotation.getD 0
    window_state := j.window_state.getD 0
    window_pos := wpv
    show_toc := j.show_toc.getD false
    sidebar_dx := j.sidebar_dx.getD 572
    display_r2l := j.display_r2l.getD false
    reparse_idx := j.reparse_idx.getD 0
  }

/-- `FileState.to_json`: emits every key. -/
def FileState.to_json (s : FileState) : FileStateJson where
  file_path := some s.file_path
  favorites := some (s.favorites.map Favorite.to_json)
  is_pinned := some s.is_pinned
  is_missing := some s.is_missing
  open_count := some s.open_count
  use_default_state := some s.use_default_state
  display_mode := some s.display_mode
  scroll_pos := some [s.scroll_pos.1, s.scroll_pos.2]
  page_no := some s.page_no
  zoom := some s.zoom
  rotation := some s.rotation
  window_state := some s.window_state
  window_pos := some [s.window_pos.1, s.window_pos.2.1, s.window_pos.2.2.1, s.window_pos.2.2.2]
  show_toc := some s.show_toc
  sidebar_dx := some s.sidebar_dx
  display_r2l := some s.display_r2l
  reparse_idx := some s.reparse_idx

/-- A JSON record carrying only the identity key, every other key absent. -/
def FileStateJson.onlyPath (fp : String) : FileStateJson where
  file_path := some fp
  favorites := none
  is_pinned := none
  is_missing := none
  open_count := none
  use_default_state := none
  display_mode := none
  scroll_pos := none
  page_no := none
  zoom := none
  rotation := none
  window_state := none
  window_pos := none
  show_toc := none
  sidebar_dx := none
  display_r2l := none
  reparse_idx := none

lemma Favorite.from_json_to_json (f : Favorite) :
    Favorite.from_json f.to_json = .ok f := by
  cases f
  rfl

lemma Favorite.mapM_loop_from_json_to_json (l acc : List Favorite) :
    List.mapM.loop Favorite.from_json (l.map Favorite.to_json) acc
      = .ok (acc.reverse ++ l) := by
  induction l generalizing acc with
  | nil => simp [List.mapM.loop, Pure.pure, Except.pure]
  | cons f rest ih =>
      simp [List.mapM.loop, Favorite.from_json_to_json, Bind.bind, Except.bind,
        ih (f :: acc)]

lemma Favorite.mapM_from_json_to_json (l : List Favorite) :
    (l.map Favorite.to_json).mapM Favorite.from_json = .ok l := by
  have h := Favorite.mapM_loop_from_json_to_json l []
  simpa [List.mapM] using h

/-- Claim C2: for every `FileState` `x`, `FileState.from_json x.to_json`
reproduces every field of `x` exactly. -/
theorem FileState.from_json_to_json_roundtrip (x : FileState) :
    FileState.from_json x.to_json = .ok x := by
  cases x with
  | mk fp favs ip im oc uds dm sp pn z r ws wp st sd dr ri =>
      cases sp
      obtain ⟨wa, wb, wc, wd⟩ := wp
      simp [FileState.from_json, FileState.to_json, List.mapM,
        Favorite.mapM_loop_from_json_to_json, Bind.bind, Except.bind]

/-- Claim C4, counterexample: deserializing a record whose `page_no` key
is missing yields `page_no = 1` (the constructor default is the 1-based
page 1), not the claimed 0. -/
theorem FileState.from_json_missing_page_no_is_one :
    (FileState.from_json (FileStateJson.onlyPath "a.pdf")).map FileState.page_no
      = .ok 1 ∧ (1 : Int) ≠ 0 := by
  exact ⟨rfl, by decide⟩

/-- Claim C4, amended: deserializing a record carrying only `file_path`
reproduces every constructor default, in particular `zoom = 1.0`,
`rotation = 0`, `page_no = 1` (not 0), `display_mode = "continuous"`, and
`scroll_pos = (0, 0)`. -/
theorem FileState.from_json_missing_keys_default (fp : String) :
    FileState.from_json (FileStateJson.onlyPath fp) = .ok (FileState.init fp) ∧
    (FileState.init fp).zoom = 1 ∧
    (FileState.init fp).rotation = 0 ∧
    (FileState.init fp).page_no = 1 ∧
    (FileState.init fp).display_mode = "continuous" ∧
    (FileState.init fp).scroll_pos = (0, 0) :=
  ⟨rfl, rfl, rfl, rfl, rfl, rfl⟩

/-- The allowed rotation angles (FileState.ROTATIONS). -/
def FileState.ROTATIONS : List Int := [0, 90, 180, 270]

/-- The mutable view-state fields a `Tab` exposes through its validated
property setters (plugins/Tab/Tab.py). -/
structure TabState where
  page_no : Int
  zoom : ℚ
  rotation : Int
  scroll_pos : ℚ × ℚ
  display_mode : String
deriving DecidableEq, Repr

/-- A rejected view-state mutation (the `ValueError` raised by the
corresponding property setter). -/
inductive ValidationError
  | pageOutOfRange (page_no total_pages : Int)
  | zoomNotPositive (zoom : ℚ)
  | invalidRotation (angle : Int)
deriving DecidableEq, Repr

/-- `Tab.page_no` setter: rejects any page outside `[0, total_pages)`;
the raise happens before the assignment, so on error the state is
returned unchanged. -/
def Tab.set_page_no (total_pages : Int) (s : TabState) (p : Int) :
    TabState × Option ValidationError :=
  if 0 ≤ p ∧ p < total_pages then ({ s with page_no := p }, none)
  else (s, some (.pageOutOfRange p total_pages))

/-- `Tab.zoom` setter: rejects any non-positive zoom level. -/
def Tab.set_zoom (s : TabState) (z : ℚ) : TabState × Option ValidationError :=
  if z ≤ 0 then (s, some (.zoomNotPositive z))
  else ({ s with zoom := z }, none)

/-- `Tab.rotation` setter: rejects any angle not in `FileState.ROTATIONS`. -/
def Tab.set_rotation (s : TabState) (a : Int) : TabState × Option ValidationError :=
  if a ∈ FileState.ROTATIONS then ({ s with rotation := a }, none)
  else (s, some (.invalidRotation a))

/-- The view-state invariant maintained by the setters. -/
def TabInv (total_pages : Int) (s : TabState) : Prop :=
  0 ≤ s.page_no ∧ s.page_no < total_pages ∧ 0 < s.zoom

/-- Claim C1: each invalid mutation fails with a `ValidationError` and
leaves the prior field values intact, and every mutation that returns
without error maintains `0 ≤ page_no < total_pages` and `zoom > 0`. -/
theorem Tab.setter_validation (total_pages : Int) (s : TabState)
    (hInv : TabInv total_pages s) :
    (∀ z, z ≤ 0 → Tab.set_zoom s z = (s, some (.zoomNotPositive z))) ∧
    (∀ a, a ∉ FileState.ROTATIONS →
      Tab.set_rotation s a = (s, some (.invalidRotation a))) ∧
    (∀ p, ¬(0 ≤ p ∧ p < total_pages) →
      Tab.set_page_no total_pages s p = (s, some (.pageOutOfRange p total_pages))) ∧
    (∀ z s', Tab.set_zoom s z = (s', none) → TabInv total_pages s') ∧
    (∀ a s', Tab.set_rotation s a = (s', none) → TabInv total_pages s') ∧
    (∀ p s', Tab.set_page_no total_pages s p = (s', none) → TabInv total_pages s') := by
  obtain ⟨h1, h2, h3⟩ := hInv
  refine ⟨?_, ?_, ?_, ?_, ?_, ?_⟩
  · intro z hz
    simp [Tab.set_zoom, hz]
  · intro a ha
    simp [Tab.set_rotation, ha]
  · intro p hp
    simp [Tab.set_page_no, hp]
  · intro z s' h
    by_cases hz : z ≤ 0
    · simp [Tab.set_zoom, hz] at h
    · simp [Tab.set_zoom, hz] at h
      subst h
      exact ⟨h1, h2, lt_of_not_le hz⟩
  · intro a s' h
    by_cases ha : a ∈ FileState.ROTATIONS
    · simp [Tab.set_rotation, ha] at h
      subst h
      exact ⟨h1, h2, h3⟩
    · simp [Tab.set_rotation, ha] at h
  · intro p s' h
    by_cases hp : 0 ≤ p ∧ p < total_pages
    · simp [Tab.set_page_no, hp] at h
      subst h
      exact ⟨hp.1, hp.2, h3⟩
    · simp [Tab.set_page_no, hp] at h

/-- A concrete valid tab state on a five-page document. -/
def tabState₀ : TabState where
  page_no := 0
  zoom := 1
  rotation := 0
  scroll_pos := (0, 0)
  display_mode := "continuous"

/-- Witness for claim C1 on a five-page document. -/
theorem Tab.setter_validation_witness :
    TabInv 5 tabState₀ ∧
    ((∀ z, z ≤ 0 → Tab.set_zoom tabState₀ z = (tabState₀, some (.zoomNotPositive z))) ∧
    (∀ a, a ∉ FileState.ROTATIONS →
      Tab.set_rotation tabState₀ a = (tabState₀, some (.invalidRotation a))) ∧
    (∀ p, ¬(0 ≤ p ∧ p < 5) →
      Tab.set_page_no 5 tabState₀ p = (tabState₀, some (.pageOutOfRange p 5))) ∧
    (∀ z s', Tab.set_zoom tabState₀ z = (s', none) → TabInv 5 s') ∧
    (∀ a s', Tab.set_rotation tabState₀ a = (s', none) → TabInv 5 s') ∧
    (∀ p s', Tab.set_page_no 5 tabState₀ p = (s', none) → TabInv 5 s')) :=
  ⟨⟨by norm_num [tabState₀], by norm_num [tabState₀], by norm_num [tabState₀]⟩,
    Tab.setter_validation 5 tabState₀
      ⟨by norm_num [tabState₀], by norm_num [tabState₀], by norm_num [tabState₀]⟩⟩

/-- Replace the element at one position of a list, leaving every other
element alone (in-place mutation of one record of the collection). -/
def modifyAt {α : Type} : List α → Nat → (α → α) → List α
  | [], _, _ => []
  | x :: xs, 0, f => f x :: xs
  | x :: xs, n + 1, f => x :: modifyAt xs n f

lemma modifyAt_length {α : Type} (l : List α) (i : Nat) (f : α → α) :
    (modifyAt l i f).length = l.length := by
  induction l generalizing i with
  | nil => rfl
  | cons x xs ih =>
      cases i with
      | zero => rfl
      | succ n => simp [modifyAt, ih]

lemma modifyAt_get? {α : Type} (l : List α) (i : Nat) (f : α → α) :
    (modifyAt l i f).get? i = (l.get? i).map f := by
  induction l generalizing i with
  | nil => rfl
  | cons x xs ih =>
      cases i with
      | zero => rfl
      | succ n => simpa [modifyAt] using ih n

/-- The linear scan of `Tab.__init__`: index of the first record of the
collection whose `file_path` equals the opened path. -/
def Tab.find_state_idx (path : String) : List FileStateJson → Option Nat
  | [] => none
  | st :: rest =>
      if st.file_path = some path then some 0
      else (Tab.find_state_idx path rest).map (· + 1)

lemma Tab.find_state_idx_modifyAt (path : String) (l : List FileStateJson)
    (i : Nat) (f : FileStateJson → FileStateJson)
    (hpres : ∀ st, (f st).file_path = st.file_path) :
    Tab.find_state_idx path (modifyAt l i f) = Tab.find_state_idx path l := by
  induction l generalizing i with
  | nil => rfl
  | cons st rest ih =>
      cases i with
      | zero => simp [modifyAt, Tab.find_state_idx, hpres st]
      | succ n => simp [modifyAt, Tab.find_state_idx, ih n]

/-- `Tab.__init__`: look the path up in the persisted `file_states`
collection; reuse the record found there, otherwise construct a default
record and insert it at index 0. Returns the collection and the position
of the tab's record. -/
def Tab.init_state (file_states : List FileStateJson) (path : String) :
    List FileStateJson × Nat :=
  match Tab.find_state_idx path file_states with
  | some i => (file_states, i)
  | none => ((FileState.init path).to_json :: file_states, 0)

/-- The `open_count` update of a successful `Tab.open`. -/
def incr_open_count (st : FileStateJson) : FileStateJson :=
  { st with open_count := some (st.open_count.getD 0 + 1) }

/-- A successful open of a tab: find-or-create the record, then count
the open on that same record. -/
def Tab.open_file (file_states : List FileStateJson) (path : String) :
    List FileStateJson × Nat :=
  match Tab.init_state file_states path with
  | (states, i) => (modifyAt states i incr_open_count, i)

lemma Tab.open_file_found (states : List FileStateJson) (path : String) (i : Nat)
    (h : Tab.find_state_idx path states = some i) :
    Tab.open_file states path = (modifyAt states i incr_open_count, i) := by
  simp [Tab.open_file, Tab.init_state, h]

lemma Tab.open_file_not_found (states : List FileStateJson) (path : String)
    (h : Tab.find_state_idx path states = none) :
    Tab.open_file states path
      = (incr_open_count (FileState.init path).to_json :: states, 0) := by
  simp [Tab.open_file, Tab.init_state, h, modifyAt]

lemma Tab.find_state_idx_open_file (states : List FileStateJson) (path : String) :
    Tab.find_state_idx path (Tab.open_file states path).1
      = some (Tab.open_file states path).2 := by
  cases hfind : Tab.find_state_idx path states with
  | some i =>
      simp only [Tab.open_file, Tab.init_state, hfind]
      rw [Tab.find_state_idx_modifyAt path states i incr_open_count (fun st => rfl)]
      exact hfind
  | none =>
      simp only [Tab.open_file, Tab.init_state, hfind]
      rw [Tab.find_state_idx_modifyAt path _ 0 incr_open_count (fun st => rfl)]
      simp [Tab.find_state_idx, FileState.to_json, FileState.init]

/-- Claim C3: a second open of the same path reuses the very record the
first open used (same position, the collection is not regrown), each
successful open adds exactly one to that record's `open_count`, and a
path not yet present gets a fresh default record inserted at the front. -/
theorem Tab.open_file_identity_reuse (states : List FileStateJson) (path : String) :
    (Tab.open_file (Tab.open_file states path).1 path).2
        = (Tab.open_file states path).2 ∧
    (Tab.open_file (Tab.open_file states path).1 path).1.length
        = (Tab.open_file states path).1.length ∧
    (Tab.open_file (Tab.open_file states path).1 path).1.get?
        (Tab.open_file states path).2
      = ((Tab.open_file states path).1.get?
          (Tab.open_file states path).2).map incr_open_count ∧
    (∀ st, (incr_open_count st).open_count = some (st.open_count.getD 0 + 1)) ∧
    (Tab.find_state_idx path states = none →
      (Tab.open_file states path).2 = 0 ∧
      (Tab.open_file states path).1.length = states.length + 1 ∧
      (Tab.open_file states path).1.get? 0
        = some (incr_open_count (FileState.init path).to_json) ∧
      (incr_open_count (FileState.init path).to_json).open_count = some 1) := by
  have hsecond :
      Tab.open_file (Tab.open_file states path).1 path
        = (modifyAt (Tab.open_file states path).1 (Tab.open_file states path).2
            incr_open_count, (Tab.open_file states path).2) :=
    Tab.open_file_found _ path _ (Tab.find_state_idx_open_file states path)
  refine ⟨?_, ?_, ?_, fun st => rfl, ?_⟩
  · rw [hsecond]
  · rw [hsecond]
    exact modifyAt_length _ _ _
  · rw [hsecond]
    exact modifyAt_get? _ _ _
  · intro hnone
    rw [Tab.open_file_not_found states path hnone]
    exact ⟨rfl, rfl, rfl, rfl⟩

/-- Witness for claim C3: opening a fresh path in an empty store. -/
theorem Tab.open_file_identity_reuse_witness :
    Tab.find_state_idx "a.pdf" ([] : List FileStateJson) = none ∧
    ((Tab.open_file ([] : List FileStateJson) "a.pdf").2 = 0 ∧
      (Tab.open_file ([] : List FileStateJson) "a.pdf").1.length
        = ([] : List FileStateJson).length + 1 ∧
      (Tab.open_file ([] : List FileStateJson) "a.pdf").1.get? 0
        = some (incr_open_count (FileState.init "a.pdf").to_json) ∧
      (incr_open_count (FileState.init "a.pdf").to_json).open_count = some 1) :=
  ⟨rfl, (Tab.open_file_identity_reuse [] "a.pdf").2.2.2.2 rfl⟩

/-- The in-memory, non-persisted part of a tab: a reference into the
`file_states` collection, the backend document handle, and the items
drawn on the tab's canvas. -/
structure TabHandle where
  state_ref : Option Nat
  doc : Option Nat
  canvas_items : List Nat
deriving DecidableEq, Repr

/-- The application state the tab plugin touches: the persisted
`file_states` collection and the list of open tabs. -/
structure ReaderApp where
  file_states : List FileStateJson
  tabs : List TabHandle
deriving DecidableEq, Repr

/-- `Tab.reset_tab`: close the document, drop the tab's reference to its
state record, and clear the canvas; the record itself is not touched. -/
def Tab.reset_tab (t : TabHandle) : TabHandle :=
  { t with state_ref := none, doc := none, canvas_items := [] }

/-- `TabPlugin.close_tab`: remove the tab from the open-tab list and
reset it. Returns the application state and the reset tab. -/
def TabPlugin.close_tab (app : ReaderApp) (t : TabHandle) : ReaderApp × TabHandle :=
  ({ app with tabs := app.tabs.erase t }, Tab.reset_tab t)

/-- Claim C9: closing a tab releases only the document handle and the
tab's UI resources; the persisted `file_states` collection is left
exactly as it was, so the tab's ViewState record survives unmodified. -/
theorem TabPlugin.close_tab_preserves_file_states (app : ReaderApp) (t : TabHandle) :
    (TabPlugin.close_tab app t).1.file_states = app.file_states ∧
    (TabPlugin.close_tab app t).2.doc = none ∧
    (TabPlugin.close_tab app t).2.state_ref = none ∧
    (TabPlugin.close_tab app t).2.canvas_items = [] :=
  ⟨rfl, rfl, rfl, rfl⟩

/-- The three cheap transpose operations of the imaging library. -/
inductive Transpose
  | rotate90
  | rotate180
  | rotate270
deriving DecidableEq, Repr

/-- What `Tab.rotate_image` hands back: the original image object
itself, a transposed copy, or a generally rotated (expanded) copy. -/
inductive RotateResult (Image : Type)
  | original (img : Image)
  | transposedCopy (t : Transpose) (img : Image)
  | rotatedCopy (angle : Int) (img : Image)
deriving DecidableEq, Repr

/-- `Tab.rotate_image`: angle 0 returns the image object itself with no
copy; 90/180/270 go through the transpose map; any other angle falls
back to a general rotation with expansion. -/
def Tab.rotate_image {Image : Type} (img : Image) (angle : Int) : RotateResult Image :=
  if angle = 0 then .original img
  else if angle = 90 then .transposedCopy .rotate90 img
  else if angle = 180 then .transposedCopy .rotate180 img
  else if angle = 270 then .transposedCopy .rotate270 img
  else .rotatedCopy angle img

/-- Claim C10: rotation by 0 is the identity of the rotate operation
(the original image object is returned, no copy), and each angle in
{90, 180, 270} yields a transposed copy. -/
theorem Tab.rotate_image_zero_is_identity {Image : Type} (img : Image) :
    Tab.rotate_image img 0 = .original img ∧
    Tab.rotate_image img 90 = .transposedCopy .rotate90 img ∧
    Tab.rotate_image img 180 = .transposedCopy .rotate180 img ∧
    Tab.rotate_image img 270 = .transposedCopy .rotate270 img :=
  ⟨rfl, rfl, rfl, rfl⟩

/-- An axis-aligned rectangle with rational coordinates (fitz.Rect). -/
structure Rect where
  x0 : ℚ
  y0 : ℚ
  x1 : ℚ
  y1 : ℚ
deriving DecidableEq, Repr

/-- Uniform scaling of a rectangle (fitz `rect * zoom`). -/
def Rect.scaleBy (r : Rect) (z : ℚ) : Rect :=
  { x0 := r.x0 * z, y0 := r.y0 * z, x1 := r.x1 * z, y1 := r.y1 * z }

/-- The inputs `Tab.visible_page_positions` reads: the intrinsic page
size, the zoom factor, and the canvas view fractions. -/
structure TabView where
  page_width : ℚ
  page_height : ℚ
  zoom : ℚ
  x_view_start : ℚ
  x_view_end : ℚ
  y_view_start : ℚ
  y_view_end : ℚ
deriving DecidableEq, Repr

/-- `Tab.visible_page_positions`: the single visible page together with
its visible region (view fractions times the page size) and the canvas
rectangle that region occupies (region scaled by zoom). -/
def Tab.visible_page_positions (t : TabView) : List (Rect × Rect) :=
  let visible_page_region : Rect :=
    { x0 := t.x_view_start * t.page_width
      y0 := t.y_view_start * t.page_height
      x1 := t.x_view_end * t.page_width
      y1 := t.y_view_end * t.page_height }
  [(visible_page_region, visible_page_region.scaleBy t.zoom)]

/-- An image drawn on a canvas at a pixel anchor. -/
inductive CanvasItem
  | image (x y : ℚ)
deriving DecidableEq, Repr

/-- The state `Tab.render` reads and writes. -/
structure TabR where
  doc_open : Bool
  total_pages : Int
  page_no : Int
  view : TabView
  canvas : List CanvasItem
deriving DecidableEq, Repr

/-- The loop body of `Tab.render`: one `get_pixmap` call per visible
position, drawing the raster at the region's canvas position; a backend
raise aborts the loop, keeping what was already drawn. Returns the
canvas contents, the number of `get_pixmap` calls, and the outcome. -/
def Tab.render_loop (backend_fails : Bool) :
    List CanvasItem → Nat → List (Rect × Rect) →
      List CanvasItem × Nat × Except String Unit
  | canvas, count, [] => (canvas, count, .ok ())
  | canvas, count, (_, canvas_rect) :: rest =>
      if backend_fails then (canvas, count + 1, .error "get_pixmap failed")
      else Tab.render_loop backend_fails
        (canvas ++ [.image canvas_rect.x0 canvas_rect.y0]) (count + 1) rest

/-- `Tab.render`: returns immediately without a document or with the
page out of range; otherwise the canvas is cleared first and every
visible position is rasterized and drawn. -/
def Tab.render (t : TabR) (backend_fails : Bool) :
    TabR × Nat × Except String Unit :=
  if t.doc_open = true ∧ 0 ≤ t.page_no ∧ t.page_no < t.total_pages then
    match Tab.render_loop backend_fails [] 0 (Tab.visible_page_positions t.view) with
    | (canvas, count, res) => ({ t with canvas := canvas }, count, res)
  else (t, 0, .ok ())

/-- A concrete open tab on a five-page US-letter document. -/
def tabR₀ : TabR where
  doc_open := true
  total_pages := 5
  page_no := 0
  view := { page_width := 612, page_height := 792, zoom := 1,
            x_view_start := 0, x_view_end := 1, y_view_start := 0, y_view_end := 1 }
  canvas := []

/-- Claim C5, counterexample: two successive `Tab.render` calls with no
view-state change rasterize twice — `Tab.render` has no unchanged-region
check, so the second call is not a no-op. -/
theorem Tab.render_twice_rasterizes_twice :
    (Tab.render tabR₀ false).2.1 = 1 ∧
    (Tab.render (Tab.render tabR₀ false).1 false).2.1 = 1 ∧
    (1 + 1 : Nat) ≠ 1 := by
  refine ⟨by decide, by decide, by decide⟩

/-- The fixed rendering DPI of the example viewer. -/
def PDFViewer.dpi : ℚ := 200

/-- `scale = dpi / 72`. -/
def PDFViewer.scale : ℚ := PDFViewer.dpi / 72

/-- The centre-movement threshold (pixels) below which a re-render is
suppressed. -/
def PDFViewer.render_threshold : ℚ := 15

/-- The prefetch margin (pixels) added around the visible region. -/
def PDFViewer.render_margin : ℚ := 80

/-- The state of the example viewer
(schedule/pdf_viewer_example.py, class PDFViewer). -/
structure PDFViewer where
  page_width : ℚ
  page_height : ℚ
  x_view_start : ℚ
  x_view_end : ℚ
  y_view_start : ℚ
  y_view_end : ℚ
  rendered_region : Option Rect
deriving DecidableEq, Repr

/-- `total_pix_width = int(page_rect.width * scale)` (the truncation
equals the floor for the non-negative page sizes considered here). -/
def PDFViewer.total_pix_width (v : PDFViewer) : ℚ :=
  ((⌊v.page_width * PDFViewer.scale⌋ : ℤ) : ℚ)

/-- `total_pix_height = int(page_rect.height * scale)`. -/
def PDFViewer.total_pix_height (v : PDFViewer) : ℚ :=
  ((⌊v.page_height * PDFViewer.scale⌋ : ℤ) : ℚ)

/-- `PDFViewer.calculate_visible_rect`: visible pixel region from the
view fractions, expanded by the prefetch margin, clamped to
`[0, total_pix_width] × [0, total_pix_height]`, then converted back to
document space by dividing by `scale`. -/
def PDFViewer.calculate_visible_rect (v : PDFViewer) : Rect :=
  let W := v.total_pix_width
  let H := v.total_pix_height
  let pix_x1 := max 0 (v.x_view_start * W - PDFViewer.render_margin)
  let pix_y1 := max 0 (v.y_view_start * H - PDFViewer.render_margin)
  let pix_x2 := min W (v.x_view_end * W + PDFViewer.render_margin)
  let pix_y2 := min H (v.y_view_end * H + PDFViewer.render_margin)
  { x0 := pix_x1 / PDFViewer.scale
    y0 := pix_y1 / PDFViewer.scale
    x1 := pix_x2 / PDFViewer.scale
    y1 := pix_y2 / PDFViewer.scale }

/-- `PDFViewer.is_region_changed`: a first render is always needed;
afterwards a render is needed only when the region's centre moved more
than the threshold on some axis. -/
def PDFViewer.is_region_changed (v : PDFViewer) (new_rect : Rect) : Bool :=
  match v.rendered_region with
  | none => true
  | some r =>
      let old_center_x := (r.x0 + r.x1) / 2 * PDFViewer.scale
      let old_center_y := (r.y0 + r.y1) / 2 * PDFViewer.scale
      let new_center_x := (new_rect.x0 + new_rect.x1) / 2 * PDFViewer.scale
      let new_center_y := (new_rect.y0 + new_rect.y1) / 2 * PDFViewer.scale
      decide (|new_center_x - old_center_x| > PDFViewer.render_threshold ∨
        |new_center_y - old_center_y| > PDFViewer.render_threshold)

/-- `PDFViewer.render_visible_area`: skip when the region has not moved
beyond the threshold; otherwise record the region and rasterize it. The
Boolean reports whether `get_pixmap` was called. -/
def PDFViewer.render_visible_area (v : PDFViewer) : PDFViewer × Bool :=
  let visible_pdf_rect := v.calculate_visible_rect
  if v.is_region_changed visible_pdf_rect then
    ({ v with rendered_region := some visible_pdf_rect }, true)
  else (v, false)

lemma PDFViewer.is_region_changed_self (v : PDFViewer) (r : Rect)
    (h : v.rendered_region = some r) :
    v.is_region_changed r = false := by
  simp [PDFViewer.is_region_changed, h, sub_self, abs_zero, PDFViewer.render_threshold]

/-- Claim C5, amended: in the example viewer, a first render with no
region recorded rasterizes, and a second `render_visible_area` with no
view change between the calls never calls `get_pixmap` again — the
region's centre has not moved beyond the threshold. -/
theorem PDFViewer.second_render_is_noop (v : PDFViewer) :
    (v.rendered_region = none → (PDFViewer.render_visible_area v).2 = true) ∧
    (PDFViewer.render_visible_area (PDFViewer.render_visible_area v).1).2 = false := by
  constructor
  · intro h
    simp [PDFViewer.render_visible_area, PDFViewer.is_region_changed, h]
  · cases hb : PDFViewer.is_region_changed v v.calculate_visible_rect with
    | false =>
        have h1 : PDFViewer.render_visible_area v = (v, false) := by
          simp [PDFViewer.render_visible_area, hb]
        rw [h1]
        simp [PDFViewer.render_visible_area, hb]
    | true =>
        have h1 : PDFViewer.render_visible_area v
            = ({ v with rendered_region := some v.calculate_visible_rect }, true) := by
          simp [PDFViewer.render_visible_area, hb]
        rw [h1]
        have hc : PDFViewer.calculate_visible_rect
            { v with rendered_region := some v.calculate_visible_rect }
            = v.calculate_visible_rect := rfl
        have hchg := PDFViewer.is_region_changed_self
          { v with rendered_region := some v.calculate_visible_rect }
          v.calculate_visible_rect rfl
        simp [PDFViewer.render_visible_area, hc, hchg]

/-- A concrete example-viewer state before its first render. -/
def viewer₀ : PDFViewer where
  page_width := 612
  page_height := 792
  x_view_start := 0
  x_view_end := 1
  y_view_start := 0
  y_view_end := 1
  rendered_region := none

/-- Witness for the amended claim C5. -/
theorem PDFViewer.second_render_is_noop_witness :
    viewer₀.rendered_region = none ∧
    (PDFViewer.render_visible_area viewer₀).2 = true ∧
    (PDFViewer.render_visible_area (PDFViewer.render_visible_area viewer₀).1).2 = false :=
  ⟨rfl, (PDFViewer.second_render_is_noop viewer₀).1 rfl,
    (PDFViewer.second_render_is_noop viewer₀).2⟩

/-- A concrete open tab whose canvas still shows a previously drawn
raster. -/
def tabR₁ : TabR :=
  { tabR₀ with canvas := [CanvasItem.image 0 0] }

/-- Claim C8, counterexample: when the backend raises, `Tab.render` has
already cleared the canvas, so the previously drawn raster is lost (the
canvas ends blank, not equal to its prior contents) and the raw backend
error propagates instead of a recoverable `RenderError`. -/
theorem Tab.render_failure_counterexample :
    tabR₁.canvas = [CanvasItem.image 0 0] ∧
    (Tab.render tabR₁ true).1.canvas = [] ∧
    (Tab.render tabR₁ true).1.canvas ≠ tabR₁.canvas ∧
    (Tab.render tabR₁ true).2.2 = .error "get_pixmap failed" := by
  exact ⟨rfl, by decide, by decide, rfl⟩

/-- Claim C8, amended: if the backend raises during rasterization of an
open, in-range page, `Tab.render` leaves the canvas blank (it was
cleared before the `get_pixmap` call) and the backend's exception
propagates unwrapped to the caller. -/
theorem Tab.render_failure_blank_canvas (t : TabR)
    (h : t.doc_open = true ∧ 0 ≤ t.page_no ∧ t.page_no < t.total_pages) :
    (Tab.render t true).1.canvas = [] ∧
    (Tab.render t true).2.2 = .error "get_pixmap failed" := by
  simp [Tab.render, h, Tab.visible_page_positions, Tab.render_loop]

/-- Witness for the amended claim C8. -/
theorem Tab.render_failure_blank_canvas_witness :
    (tabR₁.doc_open = true ∧ 0 ≤ tabR₁.page_no ∧ tabR₁.page_no < tabR₁.total_pages) ∧
    (Tab.render tabR₁ true).1.canvas = [] ∧
    (Tab.render tabR₁ true).2.2 = .error "get_pixmap failed" :=
  ⟨by decide, Tab.render_failure_blank_canvas tabR₁ (by decide)⟩

lemma PDFViewer.scale_pos : 0 < PDFViewer.scale := by
  norm_num [PDFViewer.scale, PDFViewer.dpi]

lemma floor_scale_bounds (pd : ℚ) (hpd : 0 ≤ pd) :
    (0 : ℚ) ≤ ((⌊pd * PDFViewer.scale⌋ : ℤ) : ℚ) ∧
    ((⌊pd * PDFViewer.scale⌋ : ℤ) : ℚ) ≤ pd * PDFViewer.scale := by
  constructor
  · exact_mod_cast Int.floor_nonneg.mpr (mul_nonneg hpd PDFViewer.scale_pos.le)
  · exact Int.floor_le _

lemma clamp_axis_bounds (W margin fs fe pd : ℚ) (hW0 : 0 ≤ W)
    (hWle : W ≤ pd * PDFViewer.scale) (hs0 : 0 ≤ fs) (hs1 : fs ≤ 1)
    (he0 : 0 ≤ fe) (he1 : fe ≤ 1) (hm : 0 ≤ margin) :
    0 ≤ max 0 (fs * W - margin) / PDFViewer.scale ∧
    max 0 (fs * W - margin) / PDFViewer.scale ≤ pd ∧
    0 ≤ min W (fe * W + margin) / PDFViewer.scale ∧
    min W (fe * W + margin) / PDFViewer.scale ≤ pd := by
  have hsc := PDFViewer.scale_pos
  refine ⟨div_nonneg (le_max_left _ _) hsc.le, ?_, ?_, ?_⟩
  · rw [div_le_iff hsc]
    refine max_le (le_trans hW0 hWle) ?_
    calc fs * W - margin ≤ fs * W := sub_le_self _ hm
      _ ≤ 1 * W := mul_le_mul_of_nonneg_right hs1 hW0
      _ = W := one_mul W
      _ ≤ pd * PDFViewer.scale := hWle
  · exact div_nonneg (le_min hW0 (add_nonneg (mul_nonneg he0 hW0) hm)) hsc.le
  · rw [div_le_iff hsc]
    exact le_trans (min_le_left _ _) hWle

/-- A rectangle lying inside `[0, w] × [0, h]`. -/
def Rect.within (r : Rect) (w h : ℚ) : Prop :=
  0 ≤ r.x0 ∧ r.x0 ≤ w ∧ 0 ≤ r.x1 ∧ r.x1 ≤ w ∧
  0 ≤ r.y0 ∧ r.y0 ≤ h ∧ 0 ≤ r.y1 ∧ r.y1 ≤ h

/-- Claim C6: for view fractions in `[0, 1]` and non-negative page
sizes, the clip rectangle requested from the backend stays inside
`[0, page_width] × [0, page_height]` — the margin-expanded region of the
example viewer and the visible page region of `Tab` alike. -/
theorem visible_region_clamped (v : PDFViewer) (t : TabView)
    (hw : 0 ≤ v.page_width) (hh : 0 ≤ v.page_height)
    (hxs0 : 0 ≤ v.x_view_start) (hxs1 : v.x_view_start ≤ 1)
    (hxe0 : 0 ≤ v.x_view_end) (hxe1 : v.x_view_end ≤ 1)
    (hys0 : 0 ≤ v.y_view_start) (hys1 : v.y_view_start ≤ 1)
    (hye0 : 0 ≤ v.y_view_end) (hye1 : v.y_view_end ≤ 1)
    (htw : 0 ≤ t.page_width) (hth : 0 ≤ t.page_height)
    (htxs0 : 0 ≤ t.x_view_start) (htxs1 : t.x_view_start ≤ 1)
    (htxe0 : 0 ≤ t.x_view_end) (htxe1 : t.x_view_end ≤ 1)
    (htys0 : 0 ≤ t.y_view_start) (htys1 : t.y_view_start ≤ 1)
    (htye0 : 0 ≤ t.y_view_end) (htye1 : t.y_view_end ≤ 1) :
    (v.calculate_visible_rect).within v.page_width v.page_height ∧
    ∀ pos ∈ Tab.visible_page_positions t,
      pos.1.within t.page_width t.page_height := by
  obtain ⟨hW0, hWle⟩ := floor_scale_bounds v.page_width hw
  obtain ⟨hH0, hHle⟩ := floor_scale_bounds v.page_height hh
  have hm : (0 : ℚ) ≤ PDFViewer.render_margin := by
    norm_num [PDFViewer.render_margin]
  obtain ⟨hx1, hx2, hx3, hx4⟩ :=
    clamp_axis_bounds _ PDFViewer.render_margin v.x_view_start v.x_view_end
      v.page_width hW0 hWle hxs0 hxs1 hxe0 hxe1 hm
  obtain ⟨hy1, hy2, hy3, hy4⟩ :=
    clamp_axis_bounds _ PDFViewer.render_margin v.y_view_start v.y_view_end
      v.page_height hH0 hHle hys0 hys1 hye0 hye1 hm
  constructor
  · exact ⟨hx1, hx2, hx3, hx4, hy1, hy2, hy3, hy4⟩
  · intro pos hpos
    simp only [Tab.visible_page_positions, List.mem_singleton] at hpos
    subst hpos
    refine ⟨mul_nonneg htxs0 htw, mul_le_of_le_one_left htw htxs1,
      mul_nonneg htxe0 htw, mul_le_of_le_one_left htw htxe1,
      mul_nonneg htys0 hth, mul_le_of_le_one_left hth htys1,
      mul_nonneg htye0 hth, mul_le_of_le_one_left hth htye1⟩

/-- A concrete tab view at zoom 2 showing the upper-left quarter. -/
def tabView₀ : TabView where
  page_width := 612
  page_height := 792
  zoom := 2
  x_view_start := 0
  x_view_end := 1 / 2
  y_view_start := 0
  y_view_end := 1 / 2

/-- Witness for claim C6. -/
theorem visible_region_clamped_witness :
    ((0 : ℚ) ≤ viewer₀.page_width ∧ (0 : ℚ) ≤ viewer₀.page_height ∧
      (0 : ℚ) ≤ viewer₀.x_view_start ∧ viewer₀.x_view_start ≤ 1 ∧
      (0 : ℚ) ≤ viewer₀.x_view_end ∧ viewer₀.x_view_end ≤ 1 ∧
      (0 : ℚ) ≤ viewer₀.y_view_start ∧ viewer₀.y_view_start ≤ 1 ∧
      (0 : ℚ) ≤ viewer₀.y_view_end ∧ viewer₀.y_view_end ≤ 1 ∧
      (0 : ℚ) ≤ tabView₀.page_width ∧ (0 : ℚ) ≤ tabView₀.page_height ∧
      (0 : ℚ) ≤ tabView₀.x_view_start ∧ tabView₀.x_view_start ≤ 1 ∧
      (0 : ℚ) ≤ tabView₀.x_view_end ∧ tabView₀.x_view_end ≤ 1 ∧
      (0 : ℚ) ≤ tabView₀.y_view_start ∧ tabView₀.y_view_start ≤ 1 ∧
      (0 : ℚ) ≤ tabView₀.y_view_end ∧ tabView₀.y_view_end ≤ 1) ∧
    ((viewer₀.calculate_visible_rect).within viewer₀.page_width viewer₀.page_height ∧
      ∀ pos ∈ Tab.visible_page_positions tabView₀,
        pos.1.within tabView₀.page_width tabView₀.page_height) := by
  refine ⟨by norm_num [viewer₀, tabView₀],
    visible_region_clamped viewer₀ tabView₀ ?_ ?_ ?_ ?_ ?_ ?_ ?_ ?_ ?_ ?_ ?_ ?_
      ?_ ?_ ?_ ?_ ?_ ?_ ?_ ?_⟩ <;> norm_num [viewer₀, tabView₀]

/-- An event reaching the example viewer's scheduler: a view mutation
(scroll/zoom/resize — any caller of `schedule_render`), or the firing of
an `after` timer carrying its id. -/
inductive SchedulerEvent (V : Type)
  | mutate (v : V)
  | timer (id : Nat)

/-- The transient scheduler state: the current view, the next fresh
timer id, the armed timer id (`render_after_id`, none when idle), and
the log of executed render passes with the view each pass used. -/
structure SchedulerState (V : Type) where
  view : V
  next_id : Nat
  render_after_id : Option Nat
  renders : List V

/-- One scheduler step. A mutation overwrites the view and re-arms the
timer (`after_cancel` of the pending id, then a fresh `after`); a timer
event runs `render_visible_area` only when its id is still the armed
one — a canceled or stale id does nothing. -/
def schedule_step {V : Type} (s : SchedulerState V) :
    SchedulerEvent V → SchedulerState V
  | .mutate v =>
      { s with
        view := v
        render_after_id := some s.next_id
        next_id := s.next_id + 1 }
  | .timer id =>
      if s.render_after_id = some id then
        { s with render_after_id := none, renders := s.renders ++ [s.view] }
      else s

/-- Run the scheduler over a sequence of events. -/
def schedule_run {V : Type} (s : SchedulerState V)
    (evs : List (SchedulerEvent V)) : SchedulerState V :=
  evs.foldl schedule_step s

lemma schedule_run_mutations {V : Type} (s : SchedulerState V) (v : V) (vs : List V) :
    schedule_run s ((v :: vs).map SchedulerEvent.mutate)
      = { view := (v :: vs).getLast (List.cons_ne_nil v vs),
          next_id := s.next_id + vs.length + 1,
          render_after_id := some (s.next_id + vs.length),
          renders := s.renders } := by
  induction vs generalizing s v with
  | nil => simp [schedule_run, schedule_step, List.getLast]
  | cons v2 rest ih =>
      have hstep : schedule_run s ((v :: v2 :: rest).map SchedulerEvent.mutate)
          = schedule_run
              { s with
                view := v
                render_after_id := some s.next_id
                next_id := s.next_id + 1 }
              ((v2 :: rest).map SchedulerEvent.mutate) := rfl
      rw [hstep, ih]
      simp [List.getLast_cons]
      omega

/-- Claim C7: a burst of view mutations arriving within the debounce
window re-arms the pending timer each time without rendering; when the
timers elapse only the last armed id matches, so exactly one render pass
executes and it uses the final (last-written) view; every canceled or
stale timer id is a no-op. -/
theorem schedule_debounce_coalesces {V : Type} (s : SchedulerState V)
    (v : V) (vs : List V) :
    (schedule_run s ((v :: vs).map SchedulerEvent.mutate)).renders = s.renders ∧
    (schedule_step (schedule_run s ((v :: vs).map SchedulerEvent.mutate))
        (.timer (s.next_id + vs.length))).renders
      = s.renders ++ [(v :: vs).getLast (List.cons_ne_nil v vs)] ∧
    (∀ id, id ≠ s.next_id + vs.length →
      (schedule_step (schedule_run s ((v :: vs).map SchedulerEvent.mutate))
          (.timer id)).renders = s.renders) := by
  rw [schedule_run_mutations]
  refine ⟨rfl, by simp [schedule_step], ?_⟩
  intro id hid
  have hne : ¬((some (s.next_id + vs.length) : Option Nat) = some id) := by
    simpa using Ne.symm hid
  simp [schedule_step, hne]

/-- An idle scheduler over scroll positions, before any mutation. -/
def sched₀ : SchedulerState (ℚ × ℚ) where
  view := (0, 0)
  next_id := 0
  render_after_id := none
  renders := []

/-- Nine further scroll positions of a ten-mutation burst. -/
def burst₉ : List (ℚ × ℚ) :=
  [(0, 2), (0, 3), (0, 4), (0, 5), (0, 6), (0, 7), (0, 8), (0, 9), (0, 10)]

/-- Witness for claim C7: a burst of ten scroll mutations followed by
the surviving timer yields exactly one render, at the final position. -/
theorem schedule_debounce_coalesces_witness :
    (schedule_step (schedule_run sched₀ (((0, 1) :: burst₉).map SchedulerEvent.mutate))
        (.timer (sched₀.next_id + burst₉.length))).renders
      = [((0 : ℚ), (10 : ℚ))] := by
  have h := (schedule_debounce_coalesces sched₀ (0, 1) burst₉).2.1
  simpa [sched₀, burst₉] using h
